import Mathlib

/-!
Verification development for the music-API backend (users, songs, favorites).

The definitions below are a shallow embedding of the repository's code:
* `src/app/models.py` — the SQLModel entities `Usuario`, `Cancion`, `Favorito`
  and their create/update projections, with the declared storage constraints
  (primary keys, `unique=True` on `Usuario.correo`) and the Pydantic validators;
* `src/app/routers/usuarios.py`, `canciones.py`, `favoritos.py` — the request
  handlers, one Lean function each, keeping the source's names.

Conventions of the embedding:
* the database is a `DB` value: the three tables as lists in insertion order
  plus the next surrogate key of each table (SQLite assigns `max+1`-style ids;
  rows are only ever appended, updated in place, or deleted);
* timestamps (`default_factory=datetime.utcnow`) are a `Nat` supplied to the
  handler as `now`;
* a handler's HTTP outcome is `Except ApiError α`; every mutating handler also
  returns the resulting `DB`, which equals the input `DB` on every error path
  (the session is rolled back / the exception is raised before any commit);
* `skip`/`limit` are `Int` (Python ints) and `sqlPaginate` follows SQLite's
  `LIMIT`/`OFFSET` semantics: a negative offset acts as 0, a negative limit
  means "no limit", `LIMIT 0` returns no rows;
* `.ilike(pattern)` is SQL case-insensitive `LIKE`: both sides lowercased,
  `%` matching any sequence and `_` matching any single character.
-/

/-- HTTP-level failure outcomes raised by the handlers: 404, 400 (duplicate
email / duplicate favorite pair, via caught `IntegrityError`), 422 (Pydantic
validation) and 500 (an exception that no handler catches). -/
inductive ApiError where
  | notFound
  | conflict
  | validationError
  | serverError
deriving DecidableEq, Repr

/-- Table row `Usuario` (models.py): surrogate `id`, `nombre`, `correo`
(declared `unique=True`), `fecha_registro` set at creation. -/
structure Usuario where
  id : Nat
  nombre : String
  correo : String
  fecha_registro : Nat
deriving DecidableEq, Repr

/-- Table row `Cancion` (models.py). -/
structure Cancion where
  id : Nat
  titulo : String
  artista : String
  album : String
  duracion : Int
  anio : Int
  genero : String
  fecha_creacion : Nat
deriving DecidableEq, Repr

/-- Table row `Favorito` (models.py): foreign keys `id_usuario`, `id_cancion`
(both NOT NULL columns) and `fecha_marcado`.  The table declares no unique
constraint on the pair `(id_usuario, id_cancion)` — its only declared unique
column set is the primary key `id`. -/
structure Favorito where
  id : Nat
  id_usuario : Nat
  id_cancion : Nat
  fecha_marcado : Nat
deriving DecidableEq, Repr

/-- The persisted database: the three tables in insertion order, plus the next
surrogate key of each table. -/
structure DB where
  usuarios : List Usuario
  canciones : List Cancion
  favoritos : List Favorito
  nextUsuarioId : Nat
  nextCancionId : Nat
  nextFavoritoId : Nat
deriving DecidableEq, Repr

/-- The freshly created database (`create_db_and_tables` on an empty store). -/
def emptyDB : DB :=
  { usuarios := [], canciones := [], favoritos := [],
    nextUsuarioId := 1, nextCancionId := 1, nextFavoritoId := 1 }

/-- Request body `UsuarioCreate` (models.py), as the handler receives it after
FastAPI/Pydantic validation. -/
structure UsuarioCreate where
  nombre : String
  correo : String
deriving DecidableEq, Repr

/-- Request body `UsuarioUpdate` (models.py).  Each field is
`Option (Option _)`: the outer layer is Pydantic field presence
(`model_dump(exclude_unset=True)` keeps only the outer-`some` fields), the
inner layer is the value, which may be an explicit JSON `null` (the declared
type is `str | None`). -/
structure UsuarioUpdate where
  nombre : Option (Option String)
  correo : Option (Option String)
deriving DecidableEq, Repr

/-- Request body `CancionCreate` (models.py). -/
structure CancionCreate where
  titulo : String
  artista : String
  album : String
  duracion : Int
  anio : Int
  genero : String
deriving DecidableEq, Repr

/-- Request body `CancionUpdate` (models.py), with the same two-layer
presence/value encoding as `UsuarioUpdate`. -/
structure CancionUpdate where
  titulo : Option (Option String)
  artista : Option (Option String)
  album : Option (Option String)
  duracion : Option (Option Int)
  anio : Option (Option Int)
  genero : Option (Option String)
deriving DecidableEq, Repr

/-- Request body `FavoritoCreate` (models.py). -/
structure FavoritoCreate where
  id_usuario : Nat
  id_cancion : Nat
deriving DecidableEq, Repr

/-- `setattr(row, field, value)` for one field of a partial update: a field
that is absent (`none`) or explicitly `null` (`some none`) leaves `old`, a
supplied value replaces it.  (The explicit-`null` case never reaches this
point in the handlers: the commit fails on the NOT NULL column first.) -/
def applyField {α : Type} (old : α) : Option (Option α) → α
  | some (some v) => v
  | _ => old

/-- SQLite `OFFSET skip LIMIT limit` applied to the selected rows: a negative
offset behaves as 0, a negative limit means no limit, `LIMIT 0` yields no
rows. -/
def sqlPaginate {α : Type} (skip limit : Int) (rows : List α) : List α :=
  let rest := rows.drop skip.toNat
  if limit < 0 then rest else rest.take limit.toNat

/-- SQL `LIKE` pattern matching on lowercased character lists: `%` matches any
sequence (the rest of the pattern may resume at any suffix of the text), `_`
matches any single character, anything else matches itself. -/
def likeMatch : List Char → List Char → Bool
  | [], t => t.isEmpty
  | p :: ps, t =>
    if p = '%' then
      (t.tails).any (fun ts => likeMatch ps ts)
    else
      match t with
      | [] => false
      | c :: ts => (p == '_' || p == c) && likeMatch ps ts

/-- Lowercasing of a character list (SQL `lower`). -/
def lowerList (l : List Char) : List Char := l.map Char.toLower

/-- `column.ilike(pattern)`: case-insensitive SQL `LIKE` — both the column
text and the pattern are lowercased before matching. -/
def ilike (text pattern : String) : Bool :=
  likeMatch (lowerList pattern.data) (lowerList text.data)

/-! ### Usuario handlers (src/app/routers/usuarios.py) -/

/-- `listar_usuarios` (usuarios.py): clamp `limit` to 100 when it exceeds 100,
then `select(Usuario).offset(skip).limit(limit)`. -/
def listar_usuarios (db : DB) (skip limit : Int) : List Usuario :=
  let limit := if limit > 100 then 100 else limit
  sqlPaginate skip limit db.usuarios

/-- `crear_usuario` (usuarios.py): insert and commit; the store's unique
constraint on `correo` raises `IntegrityError` exactly when another row
already holds the same `correo`, which the handler catches, rolling back and
answering 400 Conflict.  On success the returned row carries the generated
`id` and `fecha_registro`. -/
def crear_usuario (db : DB) (now : Nat) (usuario : UsuarioCreate) :
    Except ApiError Usuario × DB :=
  if db.usuarios.any (fun w => w.correo == usuario.correo) then
    (.error .conflict, db)
  else
    let w : Usuario :=
      { id := db.nextUsuarioId, nombre := usuario.nombre,
        correo := usuario.correo, fecha_registro := now }
    (.ok w, { db with usuarios := db.usuarios ++ [w],
                      nextUsuarioId := db.nextUsuarioId + 1 })

/-- `obtener_usuario` (usuarios.py): `session.get(Usuario, usuario_id)`,
404 when absent. -/
def obtener_usuario (db : DB) (usuario_id : Nat) : Except ApiError Usuario :=
  match db.usuarios.find? (fun u => u.id == usuario_id) with
  | none => .error .notFound
  | some u => .ok u

/-- `actualizar_usuario` (usuarios.py): 404 when the row is absent; otherwise
`setattr` each field of `model_dump(exclude_unset=True)` and commit.  The
commit raises `IntegrityError` — caught and mapped to 400 Conflict — when a
supplied field is an explicit `null` (NOT NULL column) or when the resulting
`correo` equals another user's (unique constraint). -/
def actualizar_usuario (db : DB) (usuario_id : Nat) (usuario_update : UsuarioUpdate) :
    Except ApiError Usuario × DB :=
  match db.usuarios.find? (fun u => u.id == usuario_id) with
  | none => (.error .notFound, db)
  | some u =>
    if usuario_update.nombre == some none || usuario_update.correo == some none then
      (.error .conflict, db)
    else
      let u' : Usuario :=
        { u with nombre := applyField u.nombre usuario_update.nombre,
                 correo := applyField u.correo usuario_update.correo }
      if db.usuarios.any (fun w => w.id != usuario_id && w.correo == u'.correo) then
        (.error .conflict, db)
      else
        (.ok u',
          { db with usuarios :=
              db.usuarios.map (fun w => if w.id == usuario_id then u' else w) })

/-- `eliminar_usuario` (usuarios.py): 404 when absent, else
`session.delete(usuario); session.commit()`.  The `favoritos` relationship
declares no delete cascade, so on flush the ORM nullifies `id_usuario` on
every referencing `Favorito` row; that column is NOT NULL, so whenever such a
row exists the commit fails with an `IntegrityError` that no handler catches
(HTTP 500) and the transaction is rolled back. -/
def eliminar_usuario (db : DB) (usuario_id : Nat) : Except ApiError Unit × DB :=
  match db.usuarios.find? (fun u => u.id == usuario_id) with
  | none => (.error .notFound, db)
  | some _ =>
    if db.favoritos.any (fun f => f.id_usuario == usuario_id) then
      (.error .serverError, db)
    else
      (.ok (), { db with usuarios := db.usuarios.filter (fun u => u.id != usuario_id) })

/-! ### Cancion handlers (src/app/routers/canciones.py) -/

/-- `listar_canciones` (canciones.py): same pagination treatment as
`listar_usuarios`, over the `cancion` table. -/
def listar_canciones (db : DB) (skip limit : Int) : List Cancion :=
  let limit := if limit > 100 then 100 else limit
  sqlPaginate skip limit db.canciones

/-- `crear_cancion` (canciones.py): validate (already done by FastAPI when the
handler runs), insert, commit; the `cancion` table has no unique constraint
besides the primary key, so the insert always succeeds. -/
def crear_cancion (db : DB) (now : Nat) (cancion : CancionCreate) :
    Except ApiError Cancion × DB :=
  let c : Cancion :=
    { id := db.nextCancionId, titulo := cancion.titulo, artista := cancion.artista,
      album := cancion.album, duracion := cancion.duracion, anio := cancion.anio,
      genero := cancion.genero, fecha_creacion := now }
  (.ok c, { db with canciones := db.canciones ++ [c],
                    nextCancionId := db.nextCancionId + 1 })

/-- One `if titulo:`-style condition of `buscar_canciones` (canciones.py):
skipped when the parameter is `None` or the empty string (Python truthiness),
otherwise an `ilike` substring-pattern condition on the given column. -/
def strCondition (field : Cancion → String) : Option String → List (Cancion → Bool)
  | some s => if s.isEmpty then [] else [fun c => ilike (field c) ("%" ++ s ++ "%")]
  | none => []

/-- The `if año:` condition of `buscar_canciones`: skipped for `None` and for
`0` (Python truthiness), otherwise an exact-equality condition. -/
def anioCondition : Option Int → List (Cancion → Bool)
  | some n => if n == 0 then [] else [fun c => c.anio == n]
  | none => []

/-- The dynamically built row set of `buscar_canciones` (canciones.py) before
pagination: the conditions appended in source order (titulo, artista, genero,
año), combined with `and_` when any condition exists (`if conditions:`). -/
def buscarRows (db : DB) (titulo artista genero : Option String)
    (anio : Option Int) : List Cancion :=
  let conditions : List (Cancion → Bool) :=
    strCondition (fun c => c.titulo) titulo ++ strCondition (fun c => c.artista) artista ++
      strCondition (fun c => c.genero) genero ++ anioCondition anio
  if conditions.isEmpty then db.canciones
  else db.canciones.filter (fun c => conditions.all (fun p => p c))

/-- `buscar_canciones` (canciones.py): clamp `limit` as in the list endpoints,
build the condition list, filter, then apply `offset(skip).limit(limit)`. -/
def buscar_canciones (db : DB) (titulo artista genero : Option String)
    (anio : Option Int) (skip limit : Int) : List Cancion :=
  let limit := if limit > 100 then 100 else limit
  sqlPaginate skip limit (buscarRows db titulo artista genero anio)

/-- `obtener_cancion` (canciones.py): `session.get(Cancion, cancion_id)`,
404 when absent. -/
def obtener_cancion (db : DB) (cancion_id : Nat) : Except ApiError Cancion :=
  match db.canciones.find? (fun c => c.id == cancion_id) with
  | none => .error .notFound
  | some c => .ok c

/-- `actualizar_cancion` (canciones.py): 404 when the row is absent; otherwise
`setattr` each field of `model_dump(exclude_unset=True)` and commit.  Unlike
`actualizar_usuario` there is no `try`/`except`: a supplied explicit `null`
makes the commit fail on the NOT NULL column with an uncaught `IntegrityError`
(HTTP 500); there is no unique constraint to collide with. -/
def actualizar_cancion (db : DB) (cancion_id : Nat) (cancion_update : CancionUpdate) :
    Except ApiError Cancion × DB :=
  match db.canciones.find? (fun c => c.id == cancion_id) with
  | none => (.error .notFound, db)
  | some c =>
    if cancion_update.titulo == some none || cancion_update.artista == some none ||
       cancion_update.album == some none || cancion_update.duracion == some none ||
       cancion_update.anio == some none || cancion_update.genero == some none then
      (.error .serverError, db)
    else
      let c' : Cancion :=
        { c with titulo := applyField c.titulo cancion_update.titulo,
                 artista := applyField c.artista cancion_update.artista,
                 album := applyField c.album cancion_update.album,
                 duracion := applyField c.duracion cancion_update.duracion,
                 anio := applyField c.anio cancion_update.anio,
                 genero := applyField c.genero cancion_update.genero }
      (.ok c',
        { db with canciones :=
            db.canciones.map (fun w => if w.id == cancion_id then c' else w) })

/-- `eliminar_cancion` (canciones.py): 404 when absent, else delete and
commit.  As with `eliminar_usuario`, no delete cascade is configured, so when
any `Favorito` row references the song the flush tries to null out its NOT
NULL `id_cancion` column and the commit fails with an uncaught
`IntegrityError` (HTTP 500), leaving the database unchanged. -/
def eliminar_cancion (db : DB) (cancion_id : Nat) : Except ApiError Unit × DB :=
  match db.canciones.find? (fun c => c.id == cancion_id) with
  | none => (.error .notFound, db)
  | some _ =>
    if db.favoritos.any (fun f => f.id_cancion == cancion_id) then
      (.error .serverError, db)
    else
      (.ok (), { db with canciones := db.canciones.filter (fun c => c.id != cancion_id) })

/-! ### Favorito handlers (src/app/routers/favoritos.py) -/

/-- The nested user and song data the favorites list response attaches to each
row (`FavoritoRead` with its `usuario`/`cancion` relationship fields,
serialized after the query; `None` when the parent is missing). -/
def favoritoConNested (db : DB) (f : Favorito) :
    Favorito × Option Usuario × Option Cancion :=
  (f, db.usuarios.find? (fun u => u.id == f.id_usuario),
      db.canciones.find? (fun c => c.id == f.id_cancion))

/-- `listar_favoritos` (favoritos.py): same pagination treatment, then each
returned row is shaped as `FavoritoRead` with nested user and song data. -/
def listar_favoritos (db : DB) (skip limit : Int) :
    List (Favorito × Option Usuario × Option Cancion) :=
  let limit := if limit > 100 then 100 else limit
  (sqlPaginate skip limit db.favoritos).map (favoritoConNested db)

/-- `crear_favorito` (favoritos.py): 404 when the referenced user is absent,
404 when the referenced song is absent, 400 Conflict when a favorite with the
same `(id_usuario, id_cancion)` pair already exists, otherwise insert and
return the new row. -/
def crear_favorito (db : DB) (now : Nat) (favorito : FavoritoCreate) :
    Except ApiError Favorito × DB :=
  match db.usuarios.find? (fun u => u.id == favorito.id_usuario) with
  | none => (.error .notFound, db)
  | some _ =>
    match db.canciones.find? (fun c => c.id == favorito.id_cancion) with
    | none => (.error .notFound, db)
    | some _ =>
      match db.favoritos.find? (fun f =>
          f.id_usuario == favorito.id_usuario && f.id_cancion == favorito.id_cancion) with
      | some _ => (.error .conflict, db)
      | none =>
        let f : Favorito :=
          { id := db.nextFavoritoId, id_usuario := favorito.id_usuario,
            id_cancion := favorito.id_cancion, fecha_marcado := now }
        (.ok f, { db with favoritos := db.favoritos ++ [f],
                          nextFavoritoId := db.nextFavoritoId + 1 })

/-- `obtener_favorito` (favoritos.py): `session.get(Favorito, favorito_id)`,
404 when absent. -/
def obtener_favorito (db : DB) (favorito_id : Nat) : Except ApiError Favorito :=
  match db.favoritos.find? (fun f => f.id == favorito_id) with
  | none => .error .notFound
  | some f => .ok f

/-- `eliminar_favorito` (favoritos.py): 404 when absent, else delete the row
(no other table references `favorito`, so the commit succeeds). -/
def eliminar_favorito (db : DB) (favorito_id : Nat) : Except ApiError Unit × DB :=
  match db.favoritos.find? (fun f => f.id == favorito_id) with
  | none => (.error .notFound, db)
  | some _ =>
    (.ok (), { db with favoritos := db.favoritos.filter (fun f => f.id != favorito_id) })

/-- `marcar_favorito_especifico` (favoritos.py): the path-parameter variant of
favorite creation; performs the same user-exists, song-exists and
pair-does-not-exist checks, then builds a `FavoritoCreate` internally and
inserts it. -/
def marcar_favorito_especifico (db : DB) (now : Nat) (id_usuario id_cancion : Nat) :
    Except ApiError Favorito × DB :=
  match db.usuarios.find? (fun u => u.id == id_usuario) with
  | none => (.error .notFound, db)
  | some _ =>
    match db.canciones.find? (fun c => c.id == id_cancion) with
    | none => (.error .notFound, db)
    | some _ =>
      match db.favoritos.find? (fun f =>
          f.id_usuario == id_usuario && f.id_cancion == id_cancion) with
      | some _ => (.error .conflict, db)
      | none =>
        let favorito_data : FavoritoCreate :=
          { id_usuario := id_usuario, id_cancion := id_cancion }
        let f : Favorito :=
          { id := db.nextFavoritoId, id_usuario := favorito_data.id_usuario,
            id_cancion := favorito_data.id_cancion, fecha_marcado := now }
        (.ok f, { db with favoritos := db.favoritos ++ [f],
                          nextFavoritoId := db.nextFavoritoId + 1 })

/-- `eliminar_favorito_especifico` (favoritos.py): look the favorite up by its
`(id_usuario, id_cancion)` pair (`.first()`), 404 when no such pair is
marked, else delete that row. -/
def eliminar_favorito_especifico (db : DB) (id_usuario id_cancion : Nat) :
    Except ApiError Unit × DB :=
  match db.favoritos.find? (fun f =>
      f.id_usuario == id_usuario && f.id_cancion == id_cancion) with
  | none => (.error .notFound, db)
  | some favorito =>
    (.ok (), { db with favoritos := db.favoritos.filter (fun f => f.id != favorito.id) })

/-! ### Pydantic year validation (src/app/models.py) -/

/-- The `Field(ge=1900, le=2100)` bounds declared on `año` in `CancionBase`
and `CancionUpdate`. -/
def anioFieldBounds (v : Int) : Bool := 1900 ≤ v && v ≤ 2100

/-- `validar_año_no_futuro` (models.py, `CancionBase`): the field validator
raises exactly when the supplied year exceeds the current calendar year
(`datetime.now().year`, passed here as `anio_actual`). -/
def validar_anio_no_futuro (anio_actual v : Int) : Bool :=
  if v > anio_actual then false else true

/-- Acceptance of the `año` value by `CancionCreate` validation: the declared
`ge`/`le` bounds together with `validar_año_no_futuro`. -/
def cancionCreateAnioAceptado (anio_actual v : Int) : Bool :=
  anioFieldBounds v && validar_anio_no_futuro anio_actual v

/-- Acceptance of the `año` field by `CancionUpdate` validation
(models.py): an absent year is accepted; a supplied year must satisfy the
declared bounds and `validar_año_no_futuro`, whose `CancionUpdate` variant
first checks `v is not None`. -/
def cancionUpdateAnioAceptado (anio_actual : Int) : Option Int → Bool
  | none => true
  | some v => anioFieldBounds v && validar_anio_no_futuro anio_actual v

/-! ### Storage-level view of the favorito table (src/app/models.py) -/

/-- The raw store's insert into the `favorito` table, honouring exactly the
constraints models.py declares on it: the primary key on `id` is its only
unique column set — there is no `UniqueConstraint` on
`(id_usuario, id_cancion)` (and SQLite does not even enforce the foreign keys
by default).  So, independent of any application pre-check, the store accepts
any row whose `id` is fresh. -/
def storage_insert_favorito (db : DB) (f : Favorito) : Option DB :=
  if db.favoritos.any (fun g => g.id == f.id) then none
  else some { db with favoritos := db.favoritos ++ [f] }

/-! ### Reachable database states -/

/-- Database states reachable through the API handlers, starting from the
freshly created empty store: each constructor applies one mutating handler
and keeps the database it returns (which is the input database whenever the
handler answers an error). -/
inductive Reachable : DB → Prop where
  | empty : Reachable emptyDB
  | crear_usuario_step (db : DB) (now : Nat) (u : UsuarioCreate) :
      Reachable db → Reachable (crear_usuario db now u).2
  | actualizar_usuario_step (db : DB) (usuario_id : Nat) (up : UsuarioUpdate) :
      Reachable db → Reachable (actualizar_usuario db usuario_id up).2
  | eliminar_usuario_step (db : DB) (usuario_id : Nat) :
      Reachable db → Reachable (eliminar_usuario db usuario_id).2
  | crear_cancion_step (db : DB) (now : Nat) (c : CancionCreate) :
      Reachable db → Reachable (crear_cancion db now c).2
  | actualizar_cancion_step (db : DB) (cancion_id : Nat) (up : CancionUpdate) :
      Reachable db → Reachable (actualizar_cancion db cancion_id up).2
  | eliminar_cancion_step (db : DB) (cancion_id : Nat) :
      Reachable db → Reachable (eliminar_cancion db cancion_id).2
  | crear_favorito_step (db : DB) (now : Nat) (f : FavoritoCreate) :
      Reachable db → Reachable (crear_favorito db now f).2
  | marcar_favorito_especifico_step (db : DB) (now : Nat) (id_usuario id_cancion : Nat) :
      Reachable db → Reachable (marcar_favorito_especifico db now id_usuario id_cancion).2
  | eliminar_favorito_step (db : DB) (favorito_id : Nat) :
      Reachable db → Reachable (eliminar_favorito db favorito_id).2
  | eliminar_favorito_especifico_step (db : DB) (id_usuario id_cancion : Nat) :
      Reachable db → Reachable (eliminar_favorito_especifico db id_usuario id_cancion).2

/-- No two stored users share a `correo`. -/
def correosDistintos (db : DB) : Prop :=
  db.usuarios.Pairwise (fun a b => a.correo ≠ b.correo)

/-- No two stored favorites share the `(id_usuario, id_cancion)` pair. -/
def paresDistintos (db : DB) : Prop :=
  db.favoritos.Pairwise (fun a b => ¬(a.id_usuario = b.id_usuario ∧ a.id_cancion = b.id_cancion))

/-- The inductive invariant the handler proofs maintain: distinct user ids
below the next surrogate key, distinct emails, distinct favorite pairs. -/
def InvDB (db : DB) : Prop :=
  db.usuarios.Pairwise (fun a b => a.id ≠ b.id) ∧
    (∀ u ∈ db.usuarios, u.id < db.nextUsuarioId) ∧
    correosDistintos db ∧ paresDistintos db

/-- Case-insensitive substring containment: the needle, lowercased, occurs
contiguously inside the lowercased text.  This is the spec's reading of the
search's string predicates. -/
def ciSubstr (needle text : String) : Prop :=
  lowerList needle.data <:+: lowerList text.data

instance (needle text : String) : Decidable (ciSubstr needle text) := by
  unfold ciSubstr; infer_instance

/-- A string free of the SQL wildcard characters `%` and `_`; for such search
strings the `LIKE` pattern `%s%` degenerates to substring containment. -/
def noWildcards (s : String) : Prop := ∀ c ∈ s.data, c ≠ '%' ∧ c ≠ '_'

instance (s : String) : Decidable (noWildcards s) := by
  unfold noWildcards; infer_instance

/-- One supplied (or absent) string parameter of the search, read as the spec
reads it: absent means no constraint, supplied means case-insensitive
substring containment. -/
def specStrMatch : Option String → String → Bool
  | none, _ => true
  | some s, text => decide (ciSubstr s text)

/-- The supplied (or absent) year parameter, read as the spec reads it:
absent means no constraint, supplied means exact equality. -/
def specAnioMatch : Option Int → Int → Bool
  | none, _ => true
  | some n, v => v == n

/-- The conjunction of the supplied search predicates, as the spec states
them (absent parameters impose no constraint). -/
def matchesBusqueda (titulo artista genero : Option String) (anio : Option Int)
    (c : Cancion) : Bool :=
  specStrMatch titulo c.titulo && specStrMatch artista c.artista &&
    specStrMatch genero c.genero && specAnioMatch anio c.anio

/-! ### Concrete data for the witnesses -/

deriving instance DecidableEq for Except

def anaUsuario : Usuario :=
  { id := 1, nombre := "Ana", correo := "ana@x.com", fecha_registro := 0 }

def bobUsuario : Usuario :=
  { id := 2, nombre := "Bob", correo := "bob@x.com", fecha_registro := 0 }

def zepCancion : Cancion :=
  { id := 1, titulo := "Stairway to Heaven", artista := "Led Zeppelin",
    album := "Led Zeppelin IV", duracion := 482, anio := 1971, genero := "Rock",
    fecha_creacion := 0 }

def parFavorito : Favorito :=
  { id := 1, id_usuario := 1, id_cancion := 1, fecha_marcado := 0 }

/-- One user (id 1) and one song (id 1), no favorites yet. -/
def dbBase : DB :=
  { usuarios := [anaUsuario], canciones := [zepCancion], favoritos := [],
    nextUsuarioId := 2, nextCancionId := 2, nextFavoritoId := 1 }

/-- `dbBase` after user 1 marked song 1 as favorite. -/
def dbConFavorito : DB := { dbBase with favoritos := [parFavorito], nextFavoritoId := 2 }

/-- `dbBase` with a second user. -/
def dbDosUsuarios : DB :=
  { dbBase with usuarios := [anaUsuario, bobUsuario], nextUsuarioId := 3 }

/-- The row produced by applying a partial user update to a stored row:
exactly the supplied non-null fields change. -/
def usuarioActualizado (u : Usuario) (up : UsuarioUpdate) : Usuario :=
  { u with nombre := applyField u.nombre up.nombre,
           correo := applyField u.correo up.correo }

/-- The row produced by applying a partial song update to a stored row:
exactly the supplied non-null fields change. -/
def cancionActualizada (c : Cancion) (up : CancionUpdate) : Cancion :=
  { c with titulo := applyField c.titulo up.titulo,
           artista := applyField c.artista up.artista,
           album := applyField c.album up.album,
           duracion := applyField c.duracion up.duracion,
           anio := applyField c.anio up.anio,
           genero := applyField c.genero up.genero }

/-- The declared default of `skip` in every list/search endpoint signature
(`skip: int = 0`). -/
def skip_default : Int := 0

/-- The declared default of `limit` in every list/search endpoint signature
(`limit: int = 100`). -/
def limit_default : Int := 100

/-! ### Properties of the LIKE matcher -/

theorem likeMatch_pct_iff (ps : List Char) (t : List Char) :
    likeMatch ('%' :: ps) t = true ↔ ∃ ts, ts <:+ t ∧ likeMatch ps ts = true := by
  show ((if ('%' : Char) = '%' then (t.tails).any (fun ts => likeMatch ps ts)
      else _) = true) ↔ _
  rw [if_pos rfl, List.any_eq_true]
  constructor
  · rintro ⟨ts, hts, h⟩
    exact ⟨ts, (List.mem_tails ts t).1 hts, h⟩
  · rintro ⟨ts, hts, h⟩
    exact ⟨ts, (List.mem_tails ts t).2 hts, h⟩

theorem likeMatch_lit (s : List Char) (t : List Char)
    (h : ∀ c ∈ s, c ≠ '%' ∧ c ≠ '_') :
    likeMatch (s ++ ['%']) t = true ↔ s <+: t := by
  induction s generalizing t with
  | nil =>
    simp only [List.nil_append]
    constructor
    · intro _; exact List.nil_prefix
    · intro _
      rw [likeMatch_pct_iff]
      exact ⟨[], by simp, rfl⟩
  | cons a s ih =>
    have ha := h a (by simp)
    have hs : ∀ c ∈ s, c ≠ '%' ∧ c ≠ '_' := fun c hc => h c (by simp [hc])
    cases t with
    | nil =>
      simp only [List.cons_append, likeMatch, if_neg ha.1]
      constructor
      · intro hfalse; cases hfalse
      · intro hpre
        exact absurd (List.prefix_nil.mp hpre) (by simp)
    | cons b t =>
      simp only [List.cons_append, likeMatch, if_neg ha.1]
      rw [Bool.and_eq_true, Bool.or_eq_true, List.cons_prefix_cons]
      constructor
      · rintro ⟨hab, hrest⟩
        rcases hab with hab | hab
        · exact absurd (by exact beq_iff_eq.1 hab) ha.2
        · exact ⟨(beq_iff_eq.1 hab).symm ▸ rfl, (ih t hs).1 hrest⟩
      · rintro ⟨rfl, hrest⟩
        exact ⟨Or.inr (beq_iff_eq.2 rfl), (ih t hs).2 hrest⟩

theorem likeMatch_infix (s : List Char) (t : List Char)
    (h : ∀ c ∈ s, c ≠ '%' ∧ c ≠ '_') :
    likeMatch ('%' :: (s ++ ['%'])) t = true ↔ s <:+: t := by
  rw [likeMatch_pct_iff, List.infix_iff_prefix_suffix]
  constructor
  · rintro ⟨ts, hsuf, hm⟩
    exact ⟨ts, (likeMatch_lit s ts h).1 hm, hsuf⟩
  · rintro ⟨ts, hpre, hsuf⟩
    exact ⟨ts, hsuf, (likeMatch_lit s ts h).2 hpre⟩

theorem toLower_ne_wild (c : Char) (hp : c ≠ '%') (hu : c ≠ '_') :
    Char.toLower c ≠ '%' ∧ Char.toLower c ≠ '_' := by
  have hdef : Char.toLower c
      = if c.toNat ≥ 65 ∧ c.toNat ≤ 90 then Char.ofNat (c.toNat + 32) else c := rfl
  rw [hdef]
  split
  · rename_i hrange
    obtain ⟨h1, h2⟩ := hrange
    generalize Char.toNat c = n at h1 h2
    interval_cases n <;> exact ⟨by decide, by decide⟩
  · exact ⟨hp, hu⟩

theorem lowerList_noWild (l : List Char) (h : ∀ c ∈ l, c ≠ '%' ∧ c ≠ '_') :
    ∀ c ∈ lowerList l, c ≠ '%' ∧ c ≠ '_' := by
  intro c hc
  rw [lowerList, List.mem_map] at hc
  obtain ⟨a, ha, rfl⟩ := hc
  exact toLower_ne_wild a (h a ha).1 (h a ha).2

/-- For a needle free of the SQL wildcard characters, the `ilike`
`%needle%` condition built by `buscar_canciones` is exactly case-insensitive
substring containment. -/
theorem ilike_eq_ciSubstr (text s : String) (h : ∀ c ∈ s.data, c ≠ '%' ∧ c ≠ '_') :
    ilike text ("%" ++ s ++ "%") = true ↔ ciSubstr s text := by
  have hdata : ("%" ++ s ++ "%").data = '%' :: (s.data ++ ['%']) := by
    simp [String.data_append]
  rw [ilike, ciSubstr, hdata]
  have hlow : lowerList ('%' :: (s.data ++ ['%']))
      = '%' :: (lowerList s.data ++ ['%']) := by
    simp [lowerList]
  rw [hlow]
  exact likeMatch_infix (lowerList s.data) (lowerList text.data)
    (lowerList_noWild s.data h)

/-! ### Spec-side reading of the search predicates -/

/-- Boolean version of `ilike_eq_ciSubstr`. -/
theorem ilike_eq_decide (text s : String) (h : noWildcards s) :
    ilike text ("%" ++ s ++ "%") = decide (ciSubstr s text) := by
  rw [Bool.eq_iff_iff, decide_eq_true_iff]
  exact ilike_eq_ciSubstr text s h

theorem strCondition_all (field : Cancion → String) (t : Option String) (c : Cancion)
    (h : ∀ s, t = some s → s ≠ "" ∧ noWildcards s) :
    (strCondition field t).all (fun p => p c) = specStrMatch t (field c) := by
  cases t with
  | none => rfl
  | some s =>
    obtain ⟨hne, hw⟩ := h s rfl
    have hemp : ¬(s.isEmpty = true) := fun he => hne ((String.isEmpty_iff s).1 he)
    rw [strCondition, if_neg hemp, specStrMatch]
    simp [ilike_eq_decide (field c) s hw]

theorem anioCondition_all (y : Option Int) (c : Cancion)
    (h : ∀ n, y = some n → n ≠ 0) :
    (anioCondition y).all (fun p => p c) = specAnioMatch y c.anio := by
  cases y with
  | none => rfl
  | some n =>
    have hz : ¬(n == 0) = true := by
      intro he
      exact h n rfl (by exact beq_iff_eq.1 he)
    rw [anioCondition, if_neg hz, specAnioMatch]
    simp

/-- Under parameters the spec contemplates (supplied strings are nonempty and
wildcard-free, a supplied year is nonzero), the row set `buscar_canciones`
filters is exactly the set of songs satisfying the conjunction of the
supplied predicates. -/
theorem buscarRows_filter (db : DB) (titulo artista genero : Option String)
    (anio : Option Int)
    (ht : ∀ s, titulo = some s → s ≠ "" ∧ noWildcards s)
    (ha : ∀ s, artista = some s → s ≠ "" ∧ noWildcards s)
    (hg : ∀ s, genero = some s → s ≠ "" ∧ noWildcards s)
    (hy : ∀ n, anio = some n → n ≠ 0) :
    buscarRows db titulo artista genero anio
      = db.canciones.filter (matchesBusqueda titulo artista genero anio) := by
  rw [buscarRows]
  split
  · rename_i hempty
    rw [List.isEmpty_iff, List.append_eq_nil, List.append_eq_nil, List.append_eq_nil]
      at hempty
    obtain ⟨⟨⟨h1, h2⟩, h3⟩, h4⟩ := hempty
    have e1 : titulo = none := by
      cases titulo with
      | none => rfl
      | some s =>
        obtain ⟨hne, _⟩ := ht s rfl
        have hemp : ¬(s.isEmpty = true) := fun he => hne ((String.isEmpty_iff s).1 he)
        rw [strCondition, if_neg hemp] at h1
        cases h1
    have e2 : artista = none := by
      cases artista with
      | none => rfl
      | some s =>
        obtain ⟨hne, _⟩ := ha s rfl
        have hemp : ¬(s.isEmpty = true) := fun he => hne ((String.isEmpty_iff s).1 he)
        rw [strCondition, if_neg hemp] at h2
        cases h2
    have e3 : genero = none := by
      cases genero with
      | none => rfl
      | some s =>
        obtain ⟨hne, _⟩ := hg s rfl
        have hemp : ¬(s.isEmpty = true) := fun he => hne ((String.isEmpty_iff s).1 he)
        rw [strCondition, if_neg hemp] at h3
        cases h3
    have e4 : anio = none := by
      cases anio with
      | none => rfl
      | some n =>
        have hz : ¬(n == 0) = true := fun he => hy n rfl (beq_iff_eq.1 he)
        rw [anioCondition, if_neg hz] at h4
        cases h4
    subst e1; subst e2; subst e3; subst e4
    rw [show matchesBusqueda none none none none = fun _ => true from rfl,
      List.filter_true]
  · symm
    apply List.filter_congr
    intro c _
    rw [matchesBusqueda, ← strCondition_all (fun c => c.titulo) titulo c ht,
      ← strCondition_all (fun c => c.artista) artista c ha,
      ← strCondition_all (fun c => c.genero) genero c hg,
      ← anioCondition_all anio c hy]
    simp only [List.all_append, Bool.and_assoc]

/-! ### Preservation of the invariant by every handler -/

theorem invDB_empty : InvDB emptyDB := by
  refine ⟨List.Pairwise.nil, ?_, List.Pairwise.nil, List.Pairwise.nil⟩
  intro u hu
  cases hu

theorem invDB_crear_usuario (db : DB) (now : Nat) (u : UsuarioCreate)
    (h : InvDB db) : InvDB (crear_usuario db now u).2 := by
  obtain ⟨hid, hlt, hcorreo, hpar⟩ := h
  rw [crear_usuario]
  split
  · exact ⟨hid, hlt, hcorreo, hpar⟩
  · rename_i hany
    have hfresh : ∀ a ∈ db.usuarios, ¬(a.correo = u.correo) := by
      intro a ha he
      exact hany (List.any_eq_true.2 ⟨a, ha, beq_iff_eq.2 he⟩)
    refine ⟨?_, ?_, ?_, hpar⟩
    · refine List.pairwise_append.2 ⟨hid, List.pairwise_singleton _ _, ?_⟩
      intro a ha b hb
      rw [List.mem_singleton] at hb
      subst hb
      exact Nat.ne_of_lt (hlt a ha)
    · intro x hx
      rcases List.mem_append.1 hx with hx | hx
      · exact Nat.lt_succ_of_lt (hlt x hx)
      · rw [List.mem_singleton] at hx
        subst hx
        exact Nat.lt_succ_self _
    · refine List.pairwise_append.2 ⟨hcorreo, List.pairwise_singleton _ _, ?_⟩
      intro a ha b hb
      rw [List.mem_singleton] at hb
      subst hb
      exact hfresh a ha

theorem invDB_actualizar_usuario (db : DB) (usuario_id : Nat) (up : UsuarioUpdate)
    (h : InvDB db) : InvDB (actualizar_usuario db usuario_id up).2 := by
  obtain ⟨hid, hlt, hcorreo, hpar⟩ := h
  cases hfind : db.usuarios.find? (fun u => u.id == usuario_id) with
  | none => simp only [actualizar_usuario, hfind]; exact ⟨hid, hlt, hcorreo, hpar⟩
  | some u =>
    have huid : u.id = usuario_id := by
      have := List.find?_some hfind
      exact beq_iff_eq.1 this
    simp only [actualizar_usuario, hfind]
    split
    · exact ⟨hid, hlt, hcorreo, hpar⟩
    · split
      · exact ⟨hid, hlt, hcorreo, hpar⟩
      · rename_i hany
        have hother : ∀ w ∈ db.usuarios, ¬(w.id = usuario_id) →
            ¬(w.correo = (applyField u.correo up.correo)) := by
          intro w hw hne he
          refine hany (List.any_eq_true.2 ⟨w, hw, ?_⟩)
          rw [Bool.and_eq_true, bne_iff_ne, beq_iff_eq]
          exact ⟨hne, he⟩
        have hphi_id : ∀ w : Usuario,
            (if w.id == usuario_id
              then { id := u.id, nombre := applyField u.nombre up.nombre,
                     correo := applyField u.correo up.correo,
                     fecha_registro := u.fecha_registro : Usuario }
              else w).id = w.id := by
          intro w
          split
          · rename_i hw
            rw [beq_iff_eq.1 hw, ← huid]
          · rfl
        constructor
        · rw [List.pairwise_map]
          refine hid.imp ?_
          intro a b hab
          rw [hphi_id a, hphi_id b]
          exact hab
        refine ⟨?_, ?_, hpar⟩
        · intro x hx
          rw [List.mem_map] at hx
          obtain ⟨w, hw, rfl⟩ := hx
          rw [hphi_id w]
          exact hlt w hw
        · rw [correosDistintos]
          rw [List.pairwise_map]
          have hboth := hid.and hcorreo
          refine hboth.imp_of_mem ?_
          intro a b ha hb hab
          obtain ⟨hne_id, hne_correo⟩ := hab
          by_cases ha' : a.id = usuario_id
          · by_cases hb' : b.id = usuario_id
            · exact absurd (ha'.trans hb'.symm) hne_id
            · rw [if_pos (beq_iff_eq.2 ha'), if_neg (fun hc => hb' (beq_iff_eq.1 hc))]
              intro he
              exact hother b hb hb' he.symm
          · by_cases hb' : b.id = usuario_id
            · rw [if_neg (fun hc => ha' (beq_iff_eq.1 hc)), if_pos (beq_iff_eq.2 hb')]
              intro he
              exact hother a ha ha' he
            · rw [if_neg (fun hc => ha' (beq_iff_eq.1 hc)),
                if_neg (fun hc => hb' (beq_iff_eq.1 hc))]
              exact hne_correo

theorem invDB_eliminar_usuario (db : DB) (usuario_id : Nat)
    (h : InvDB db) : InvDB (eliminar_usuario db usuario_id).2 := by
  obtain ⟨hid, hlt, hcorreo, hpar⟩ := h
  cases hfind : db.usuarios.find? (fun u => u.id == usuario_id) with
  | none => simp only [eliminar_usuario, hfind]; exact ⟨hid, hlt, hcorreo, hpar⟩
  | some u =>
    simp only [eliminar_usuario, hfind]
    split
    · exact ⟨hid, hlt, hcorreo, hpar⟩
    · refine ⟨hid.sublist (List.filter_sublist _), ?_,
        hcorreo.sublist (List.filter_sublist _), hpar⟩
      intro x hx
      exact hlt x (List.mem_of_mem_filter hx)

theorem invDB_crear_cancion (db : DB) (now : Nat) (c : CancionCreate)
    (h : InvDB db) : InvDB (crear_cancion db now c).2 := by
  obtain ⟨hid, hlt, hcorreo, hpar⟩ := h
  exact ⟨hid, hlt, hcorreo, hpar⟩

theorem invDB_actualizar_cancion (db : DB) (cancion_id : Nat) (up : CancionUpdate)
    (h : InvDB db) : InvDB (actualizar_cancion db cancion_id up).2 := by
  obtain ⟨hid, hlt, hcorreo, hpar⟩ := h
  cases hfind : db.canciones.find? (fun c => c.id == cancion_id) with
  | none => simp only [actualizar_cancion, hfind]; exact ⟨hid, hlt, hcorreo, hpar⟩
  | some c =>
    simp only [actualizar_cancion, hfind]
    split
    · exact ⟨hid, hlt, hcorreo, hpar⟩
    · exact ⟨hid, hlt, hcorreo, hpar⟩

theorem invDB_eliminar_cancion (db : DB) (cancion_id : Nat)
    (h : InvDB db) : InvDB (eliminar_cancion db cancion_id).2 := by
  obtain ⟨hid, hlt, hcorreo, hpar⟩ := h
  cases hfind : db.canciones.find? (fun c => c.id == cancion_id) with
  | none => simp only [eliminar_cancion, hfind]; exact ⟨hid, hlt, hcorreo, hpar⟩
  | some c =>
    simp only [eliminar_cancion, hfind]
    split
    · exact ⟨hid, hlt, hcorreo, hpar⟩
    · exact ⟨hid, hlt, hcorreo, hpar⟩

theorem invDB_crear_favorito (db : DB) (now : Nat) (f : FavoritoCreate)
    (h : InvDB db) : InvDB (crear_favorito db now f).2 := by
  obtain ⟨hid, hlt, hcorreo, hpar⟩ := h
  cases hu : db.usuarios.find? (fun u => u.id == f.id_usuario) with
  | none => simp only [crear_favorito, hu]; exact ⟨hid, hlt, hcorreo, hpar⟩
  | some _ =>
    cases hc : db.canciones.find? (fun c => c.id == f.id_cancion) with
    | none => simp only [crear_favorito, hu, hc]; exact ⟨hid, hlt, hcorreo, hpar⟩
    | some _ =>
      cases hf : db.favoritos.find? (fun g =>
          g.id_usuario == f.id_usuario && g.id_cancion == f.id_cancion) with
      | some _ => simp only [crear_favorito, hu, hc, hf]; exact ⟨hid, hlt, hcorreo, hpar⟩
      | none =>
        simp only [crear_favorito, hu, hc, hf]
        refine ⟨hid, hlt, hcorreo, ?_⟩
        have habs := List.find?_eq_none.1 hf
        rw [paresDistintos]
        refine List.pairwise_append.2 ⟨hpar, List.pairwise_singleton _ _, ?_⟩
        intro a ha b hb
        rw [List.mem_singleton] at hb
        subst hb
        intro hab
        refine habs a ha ?_
        rw [Bool.and_eq_true, beq_iff_eq, beq_iff_eq]
        exact ⟨hab.1, hab.2⟩

theorem invDB_marcar_favorito_especifico (db : DB) (now : Nat)
    (id_usuario id_cancion : Nat) (h : InvDB db) :
    InvDB (marcar_favorito_especifico db now id_usuario id_cancion).2 := by
  obtain ⟨hid, hlt, hcorreo, hpar⟩ := h
  cases hu : db.usuarios.find? (fun u => u.id == id_usuario) with
  | none => simp only [marcar_favorito_especifico, hu]; exact ⟨hid, hlt, hcorreo, hpar⟩
  | some _ =>
    cases hc : db.canciones.find? (fun c => c.id == id_cancion) with
    | none =>
      simp only [marcar_favorito_especifico, hu, hc]
      exact ⟨hid, hlt, hcorreo, hpar⟩
    | some _ =>
      cases hf : db.favoritos.find? (fun g =>
          g.id_usuario == id_usuario && g.id_cancion == id_cancion) with
      | some _ =>
        simp only [marcar_favorito_especifico, hu, hc, hf]
        exact ⟨hid, hlt, hcorreo, hpar⟩
      | none =>
        simp only [marcar_favorito_especifico, hu, hc, hf]
        refine ⟨hid, hlt, hcorreo, ?_⟩
        have habs := List.find?_eq_none.1 hf
        rw [paresDistintos]
        refine List.pairwise_append.2 ⟨hpar, List.pairwise_singleton _ _, ?_⟩
        intro a ha b hb
        rw [List.mem_singleton] at hb
        subst hb
        intro hab
        refine habs a ha ?_
        rw [Bool.and_eq_true, beq_iff_eq, beq_iff_eq]
        exact ⟨hab.1, hab.2⟩

theorem invDB_eliminar_favorito (db : DB) (favorito_id : Nat)
    (h : InvDB db) : InvDB (eliminar_favorito db favorito_id).2 := by
  obtain ⟨hid, hlt, hcorreo, hpar⟩ := h
  cases hfind : db.favoritos.find? (fun f => f.id == favorito_id) with
  | none => simp only [eliminar_favorito, hfind]; exact ⟨hid, hlt, hcorreo, hpar⟩
  | some f =>
    simp only [eliminar_favorito, hfind]
    exact ⟨hid, hlt, hcorreo, hpar.sublist (List.filter_sublist _)⟩

theorem invDB_eliminar_favorito_especifico (db : DB) (id_usuario id_cancion : Nat)
    (h : InvDB db) : InvDB (eliminar_favorito_especifico db id_usuario id_cancion).2 := by
  obtain ⟨hid, hlt, hcorreo, hpar⟩ := h
  cases hfind : db.favoritos.find? (fun f =>
      f.id_usuario == id_usuario && f.id_cancion == id_cancion) with
  | none => simp only [eliminar_favorito_especifico, hfind]; exact ⟨hid, hlt, hcorreo, hpar⟩
  | some f =>
    simp only [eliminar_favorito_especifico, hfind]
    exact ⟨hid, hlt, hcorreo, hpar.sublist (List.filter_sublist _)⟩

/-- Every database state reachable through the handlers satisfies the
inductive invariant. -/
theorem reachable_invDB (db : DB) (h : Reachable db) : InvDB db := by
  induction h with
  | empty => exact invDB_empty
  | crear_usuario_step db now u _ ih => exact invDB_crear_usuario db now u ih
  | actualizar_usuario_step db usuario_id up _ ih =>
    exact invDB_actualizar_usuario db usuario_id up ih
  | eliminar_usuario_step db usuario_id _ ih => exact invDB_eliminar_usuario db usuario_id ih
  | crear_cancion_step db now c _ ih => exact invDB_crear_cancion db now c ih
  | actualizar_cancion_step db cancion_id up _ ih =>
    exact invDB_actualizar_cancion db cancion_id up ih
  | eliminar_cancion_step db cancion_id _ ih => exact invDB_eliminar_cancion db cancion_id ih
  | crear_favorito_step db now f _ ih => exact invDB_crear_favorito db now f ih
  | marcar_favorito_especifico_step db now id_usuario id_cancion _ ih =>
    exact invDB_marcar_favorito_especifico db now id_usuario id_cancion ih
  | eliminar_favorito_step db favorito_id _ ih =>
    exact invDB_eliminar_favorito db favorito_id ih
  | eliminar_favorito_especifico_step db id_usuario id_cancion _ ih =>
    exact invDB_eliminar_favorito_especifico db id_usuario id_cancion ih

/-! ### The claims -/

/-- Claim C1: on both favorite-creation routes, a missing referenced user or
song yields NotFound with no row written; an existing `(id_usuario,
id_cancion)` pair yields Conflict with no row written; otherwise exactly one
`Favorito` row is appended and returned, and repeating the same pair on the
resulting state yields Conflict. -/
theorem c1_favorito_creation (db : DB) (now now2 iu ic : Nat) :
    (marcar_favorito_especifico db now iu ic
        = crear_favorito db now { id_usuario := iu, id_cancion := ic }) ∧
    (((db.usuarios.find? (fun u => u.id == iu)) = none ∨
        (db.canciones.find? (fun c => c.id == ic)) = none) →
      crear_favorito db now { id_usuario := iu, id_cancion := ic }
        = (.error .notFound, db)) ∧
    ((db.usuarios.find? (fun u => u.id == iu)).isSome →
      (db.canciones.find? (fun c => c.id == ic)).isSome →
      (((db.favoritos.find? (fun f => f.id_usuario == iu && f.id_cancion == ic)).isSome →
          crear_favorito db now { id_usuario := iu, id_cancion := ic }
            = (.error .conflict, db)) ∧
        ((db.favoritos.find? (fun f => f.id_usuario == iu && f.id_cancion == ic)) = none →
          crear_favorito db now { id_usuario := iu, id_cancion := ic }
              = (.ok { id := db.nextFavoritoId, id_usuario := iu, id_cancion := ic,
                       fecha_marcado := now },
                 { db with
                     favoritos := db.favoritos ++
                       [{ id := db.nextFavoritoId, id_usuario := iu, id_cancion := ic,
                          fecha_marcado := now }],
                     nextFavoritoId := db.nextFavoritoId + 1 }) ∧
            crear_favorito
                ({ db with
                     favoritos := db.favoritos ++
                       [{ id := db.nextFavoritoId, id_usuario := iu, id_cancion := ic,
                          fecha_marcado := now }],
                     nextFavoritoId := db.nextFavoritoId + 1 }) now2
                { id_usuario := iu, id_cancion := ic }
              = (.error .conflict,
                 { db with
                     favoritos := db.favoritos ++
                       [{ id := db.nextFavoritoId, id_usuario := iu, id_cancion := ic,
                          fecha_marcado := now }],
                     nextFavoritoId := db.nextFavoritoId + 1 })))) := by
  refine ⟨rfl, ?_, ?_⟩
  · intro h
    rcases h with h | h
    · simp [crear_favorito, h]
    · cases hu : db.usuarios.find? (fun u => u.id == iu) with
      | none => simp [crear_favorito, hu]
      | some _ => simp [crear_favorito, hu, h]
  · intro hu' hc'
    obtain ⟨u, hu⟩ := Option.isSome_iff_exists.1 hu'
    obtain ⟨c, hc⟩ := Option.isSome_iff_exists.1 hc'
    constructor
    · intro hfs
      obtain ⟨f, hf⟩ := Option.isSome_iff_exists.1 hfs
      simp [crear_favorito, hu, hc, hf]
    · intro hf
      constructor
      · simp [crear_favorito, hu, hc, hf]
      · have hu2 : (db.usuarios.find? (fun u => u.id == iu)) = some u := hu
        have hf2 : ((db.favoritos ++
            [{ id := db.nextFavoritoId, id_usuario := iu, id_cancion := ic,
               fecha_marcado := now : Favorito }]).find?
              (fun f => f.id_usuario == iu && f.id_cancion == ic))
            = some { id := db.nextFavoritoId, id_usuario := iu, id_cancion := ic,
                     fecha_marcado := now } := by
          rw [List.find?_append, hf]
          simp [List.find?]
        simp only [crear_favorito]
        rw [show ({ db with
                     favoritos := db.favoritos ++
                       [{ id := db.nextFavoritoId, id_usuario := iu, id_cancion := ic,
                          fecha_marcado := now }],
                     nextFavoritoId := db.nextFavoritoId + 1 } : DB).usuarios
              = db.usuarios from rfl, hu2]
        rw [show ({ db with
                     favoritos := db.favoritos ++
                       [{ id := db.nextFavoritoId, id_usuario := iu, id_cancion := ic,
                          fecha_marcado := now }],
                     nextFavoritoId := db.nextFavoritoId + 1 } : DB).canciones
              = db.canciones from rfl, hc]
        rw [hf2]

/-- Concrete run of C1 on `dbBase`: user 1 and song 1 exist and the pair is
unmarked, so the first creation succeeds appending one row and the second
yields Conflict. -/
theorem c1_favorito_creation_witness :
    crear_favorito dbBase 7 { id_usuario := 1, id_cancion := 1 }
        = (.ok { id := 1, id_usuario := 1, id_cancion := 1, fecha_marcado := 7 },
           { dbBase with
               favoritos := [{ id := 1, id_usuario := 1, id_cancion := 1,
                               fecha_marcado := 7 }],
               nextFavoritoId := 2 }) ∧
      crear_favorito
          ({ dbBase with
               favoritos := [{ id := 1, id_usuario := 1, id_cancion := 1,
                               fecha_marcado := 7 }],
               nextFavoritoId := 2 }) 9 { id_usuario := 1, id_cancion := 1 }
        = (.error .conflict,
           { dbBase with
               favoritos := [{ id := 1, id_usuario := 1, id_cancion := 1,
                               fecha_marcado := 7 }],
               nextFavoritoId := 2 }) :=
  ((c1_favorito_creation dbBase 7 9 1 1).2.2 (by decide) (by decide)).2 (by decide)

/-- Claim C2 (code bug): deleting a user (or song) that has favorites does
not cascade — the relationship declares no delete cascade, so the ORM's
attempt to null out the NOT NULL foreign key makes the commit fail with an
uncaught `IntegrityError` (HTTP 500) and nothing is deleted: with user 1,
song 1 and favorite (1,1) stored, both deletions fail, and the user, the
song and the favorite all remain fetchable. -/
theorem c2_delete_cascade_bug :
    eliminar_usuario dbConFavorito 1 = (.error .serverError, dbConFavorito) ∧
    eliminar_cancion dbConFavorito 1 = (.error .serverError, dbConFavorito) ∧
    obtener_usuario dbConFavorito 1 = .ok anaUsuario ∧
    obtener_cancion dbConFavorito 1 = .ok zepCancion ∧
    obtener_favorito dbConFavorito 1 = .ok parFavorito := by decide

/-- Claim C3, counterexample: the persisted schema does not enforce pair
uniqueness as a storage-level constraint.  The store accepts a second
favorite with the already-present pair (1, 1) — only the primary key is
checked — yielding a state with two rows for the pair, which also violates
`paresDistintos`. -/
theorem c3_storage_pair_counterexample :
    storage_insert_favorito dbConFavorito
        { id := 2, id_usuario := 1, id_cancion := 1, fecha_marcado := 5 }
      = some { dbConFavorito with
                 favoritos := [parFavorito,
                   { id := 2, id_usuario := 1, id_cancion := 1, fecha_marcado := 5 }] } ∧
    ({ dbConFavorito with
         favoritos := [parFavorito,
           { id := 2, id_usuario := 1, id_cancion := 1,
             fecha_marcado := 5 }] } : DB).favoritos.countP
        (fun f => f.id_usuario == 1 && f.id_cancion == 1) = 2 ∧
    ¬ paresDistintos { dbConFavorito with

         favoritos := [parFavorito,
           { id := 2, id_usuario := 1, id_cancion := 1, fecha_marcado := 5 }] } := by
  refine ⟨by decide, by decide, ?_⟩
  intro h
  rw [paresDistintos] at h
  have := List.rel_of_pairwise_cons h (by exact List.mem_singleton.2 rfl)
  exact this ⟨rfl, rfl⟩

/-- Claim C3 (amended): the schema-enforced unique constraint covers
`Usuario.correo`; uniqueness of the pair `(id_usuario, id_cancion)` is not a
storage constraint but is maintained by the application pre-checks of both
creation routes, so every database state reachable through the handlers has
pairwise-distinct emails and pairwise-distinct favorite pairs. -/
theorem c3_unicidad_reachable (db : DB) (h : Reachable db) :
    correosDistintos db ∧ paresDistintos db :=
  ⟨(reachable_invDB db h).2.2.1, (reachable_invDB db h).2.2.2⟩

/-- Concrete run of C3 on a state reached by two handler steps. -/
theorem c3_unicidad_reachable_witness :
    correosDistintos
        (crear_favorito (crear_usuario emptyDB 0
            { nombre := "Ana", correo := "ana@x.com" }).2 1
          { id_usuario := 1, id_cancion := 1 }).2 ∧
      paresDistintos
        (crear_favorito (crear_usuario emptyDB 0
            { nombre := "Ana", correo := "ana@x.com" }).2 1
          { id_usuario := 1, id_cancion := 1 }).2 :=
  c3_unicidad_reachable _
    (Reachable.crear_favorito_step _ 1 _
      (Reachable.crear_usuario_step emptyDB 0 _ Reachable.empty))

/-- Claim C4, counterexample: with `año=0` supplied, the search does not
return "exactly the rows satisfying the supplied predicates": Python
truthiness (`if año:`) drops the condition, so the whole table is returned
even though no row satisfies `año = 0`. -/
theorem c4_busqueda_counterexample :
    buscar_canciones dbBase none none none (some 0) 0 100 = [zepCancion] ∧
      zepCancion.anio ≠ 0 := by decide

/-- Claim C4 (amended): for every database state and every combination of
supplied parameters in which supplied strings are nonempty and free of the
SQL wildcard characters `%`/`_` and a supplied `año` is nonzero, the search
returns exactly the paginated rows satisfying the conjunction of the
supplied predicates — case-insensitive substring containment for `titulo`,
`artista`, `genero`, exact equality for `año`; an absent parameter (and, by
Python truthiness, an empty string or `año=0`, and `%`/`_` act as SQL
wildcards) imposes no or a different constraint. -/
theorem c4_busqueda_filtra (db : DB) (titulo artista genero : Option String)
    (anio : Option Int) (skip limit : Int)
    (ht : ∀ s, titulo = some s → s ≠ "" ∧ noWildcards s)
    (ha : ∀ s, artista = some s → s ≠ "" ∧ noWildcards s)
    (hg : ∀ s, genero = some s → s ≠ "" ∧ noWildcards s)
    (hy : ∀ n, anio = some n → n ≠ 0) :
    buscar_canciones db titulo artista genero anio skip limit
      = sqlPaginate skip (if limit > 100 then 100 else limit)
          (db.canciones.filter (matchesBusqueda titulo artista genero anio)) := by
  rw [buscar_canciones, buscarRows_filter db titulo artista genero anio ht ha hg hy]

/-- Concrete run of C4: a mixed-case partial substring of the artist matches
the stored song whose artist contains it in different case. -/
theorem c4_busqueda_filtra_witness :
    buscar_canciones dbBase none (some ("zePPeL")) none none 0 100
        = sqlPaginate 0 (if (100 : Int) > 100 then 100 else 100)
            (dbBase.canciones.filter (matchesBusqueda none (some ("zePPeL")) none none)) ∧
      buscar_canciones dbBase none (some ("zePPeL")) none none 0 100 = [zepCancion] :=
  ⟨c4_busqueda_filtra dbBase none (some ("zePPeL")) none none 0 100
      (fun s h => nomatch h)
      (fun s h => by cases h; exact ⟨by decide, by decide⟩)
      (fun s h => nomatch h)
      (fun n h => nomatch h),
    by decide⟩

/-- Claim C5: the search invoked with no parameters supplied returns, for
every database state and every `(skip, limit)`, the same rows as the
unfiltered song list. -/
theorem c5_buscar_sin_parametros (db : DB) (skip limit : Int) :
    buscar_canciones db none none none none skip limit
      = listar_canciones db skip limit := rfl

/-- Claim C6, counterexample: updating an existing user with a supplied
`correo` equal to another user's does not "change exactly the supplied
fields and return the updated row" — the unique constraint fires and the
handler answers Conflict with the database unchanged. -/
theorem c6_actualizar_counterexample :
    actualizar_usuario dbDosUsuarios 2
        { nombre := none, correo := some (some ("ana@x.com")) }
      = (.error .conflict, dbDosUsuarios) := by decide

/-- Claim C6 (amended): a partial update of a missing row answers NotFound
and changes nothing; on an existing row, provided no supplied field is an
explicit `null` and (for users) the resulting `correo` does not collide with
a different user's, the update changes exactly the supplied fields — the
id, the creation timestamp, unset fields and the other tables are left
untouched — and returns the updated row.  (A null field or an email
collision instead makes the commit fail: Conflict for users, an uncaught
error for songs, with nothing changed.) -/
theorem c6_actualizacion_parcial (db : DB) (uid cid : Nat)
    (uup : UsuarioUpdate) (cup : CancionUpdate) :
    (db.usuarios.find? (fun u => u.id == uid) = none →
      actualizar_usuario db uid uup = (.error .notFound, db)) ∧
    (∀ u, db.usuarios.find? (fun w => w.id == uid) = some u →
      uup.nombre ≠ some none → uup.correo ≠ some none →
      (∀ w ∈ db.usuarios, w.id ≠ uid → w.correo ≠ (usuarioActualizado u uup).correo) →
      actualizar_usuario db uid uup
          = (.ok (usuarioActualizado u uup),
             { db with usuarios := db.usuarios.map (fun w =>
                 if w.id == uid then usuarioActualizado u uup else w) }) ∧
        (usuarioActualizado u uup).id = u.id ∧
        (usuarioActualizado u uup).fecha_registro = u.fecha_registro ∧
        (uup.nombre = none → (usuarioActualizado u uup).nombre = u.nombre) ∧
        (uup.correo = none → (usuarioActualizado u uup).correo = u.correo) ∧
        (∀ v, uup.nombre = some (some v) → (usuarioActualizado u uup).nombre = v) ∧
        (∀ v, uup.correo = some (some v) → (usuarioActualizado u uup).correo = v)) ∧
    (db.canciones.find? (fun c => c.id == cid) = none →
      actualizar_cancion db cid cup = (.error .notFound, db)) ∧
    (∀ c, db.canciones.find? (fun w => w.id == cid) = some c →
      cup.titulo ≠ some none → cup.artista ≠ some none → cup.album ≠ some none →
      cup.duracion ≠ some none → cup.anio ≠ some none → cup.genero ≠ some none →
      actualizar_cancion db cid cup
          = (.ok (cancionActualizada c cup),
             { db with canciones := db.canciones.map (fun w =>
                 if w.id == cid then cancionActualizada c cup else w) }) ∧
        (cancionActualizada c cup).id = c.id ∧
        (cancionActualizada c cup).fecha_creacion = c.fecha_creacion ∧
        (cup.titulo = none → (cancionActualizada c cup).titulo = c.titulo) ∧
        (cup.artista = none → (cancionActualizada c cup).artista = c.artista) ∧
        (cup.album = none → (cancionActualizada c cup).album = c.album) ∧
        (cup.duracion = none → (cancionActualizada c cup).duracion = c.duracion) ∧
        (cup.anio = none → (cancionActualizada c cup).anio = c.anio) ∧
        (cup.genero = none → (cancionActualizada c cup).genero = c.genero)) := by
  refine ⟨?_, ?_, ?_, ?_⟩
  · intro h
    simp [actualizar_usuario, h]
  · intro u hfind hn hc hcol
    have hnull : ¬((uup.nombre == some none || uup.correo == some none) = true) := by
      rw [Bool.or_eq_true, beq_iff_eq, beq_iff_eq]
      rintro (h | h)
      · exact hn h
      · exact hc h
    have hany : ¬((db.usuarios.any (fun w =>
        w.id != uid && w.correo == applyField u.correo uup.correo)) = true) := by
      intro hx
      obtain ⟨w, hw, hwp⟩ := List.any_eq_true.1 hx
      rw [Bool.and_eq_true, bne_iff_ne, beq_iff_eq] at hwp
      exact hcol w hw hwp.1 hwp.2
    refine ⟨?_, rfl, rfl, ?_, ?_, ?_, ?_⟩
    · simp only [actualizar_usuario, hfind]
      rw [if_neg hnull, if_neg hany]
      rfl
    · intro h; rw [usuarioActualizado, h]; rfl
    · intro h; rw [usuarioActualizado, h]; rfl
    · intro v h; rw [usuarioActualizado, h]; rfl
    · intro v h; rw [usuarioActualizado, h]; rfl
  · intro h
    simp [actualizar_cancion, h]
  · intro c hfind h1 h2 h3 h4 h5 h6
    have hnull : ¬((cup.titulo == some none || cup.artista == some none ||
        cup.album == some none || cup.duracion == some none ||
        cup.anio == some none || cup.genero == some none) = true) := by
      simp only [Bool.or_eq_true, beq_iff_eq]
      rintro (((((h | h) | h) | h) | h) | h)
      · exact h1 h
      · exact h2 h
      · exact h3 h
      · exact h4 h
      · exact h5 h
      · exact h6 h
    refine ⟨?_, rfl, rfl, ?_, ?_, ?_, ?_, ?_, ?_⟩
    · simp only [actualizar_cancion, hfind]
      rw [if_neg hnull]
      rfl
    · intro h; rw [cancionActualizada, h]; rfl
    · intro h; rw [cancionActualizada, h]; rfl
    · intro h; rw [cancionActualizada, h]; rfl
    · intro h; rw [cancionActualizada, h]; rfl
    · intro h; rw [cancionActualizada, h]; rfl
    · intro h; rw [cancionActualizada, h]; rfl

/-- Concrete run of C6: updating user 2's name (email unset) changes only the
name; updating song 1's genre and duration changes only those fields. -/
theorem c6_actualizacion_parcial_witness :
    actualizar_usuario dbDosUsuarios 2 { nombre := some (some ("Roberto")), correo := none }
        = (.ok { id := 2, nombre := "Roberto", correo := "bob@x.com", fecha_registro := 0 },
           { dbDosUsuarios with usuarios :=
               [anaUsuario,
                { id := 2, nombre := "Roberto", correo := "bob@x.com", fecha_registro := 0 }] }) ∧
      actualizar_cancion dbBase 1
          { titulo := none, artista := none, album := none,
            duracion := some (some 300), anio := none, genero := some (some ("Pop")) }
        = (.ok { id := 1, titulo := "Stairway to Heaven", artista := "Led Zeppelin",
                 album := "Led Zeppelin IV", duracion := 300, anio := 1971,
                 genero := "Pop", fecha_creacion := 0 },
           { dbBase with canciones :=
               [{ id := 1, titulo := "Stairway to Heaven", artista := "Led Zeppelin",
                  album := "Led Zeppelin IV", duracion := 300, anio := 1971,
                  genero := "Pop", fecha_creacion := 0 }] }) := by
  constructor
  · have h := ((c6_actualizacion_parcial dbDosUsuarios 2 1
        { nombre := some (some ("Roberto")), correo := none }
        { titulo := none, artista := none, album := none,
          duracion := none, anio := none, genero := none }).2.1 bobUsuario
      (by decide) (by decide) (by decide) (by decide)).1
    rw [h]; decide
  · have h := ((c6_actualizacion_parcial dbBase 2 1
        { nombre := none, correo := none }
        { titulo := none, artista := none, album := none,
          duracion := some (some 300), anio := none, genero := some (some ("Pop")) }).2.2.2
        zepCancion
      (by decide) (by decide) (by decide) (by decide) (by decide) (by decide) (by decide)).1
    rw [h]; decide

/-- Claim C7: creating a user whose email is already stored fails with
Conflict (the caught constraint violation; the rollback leaves the database
unchanged); creating with a fresh email succeeds and returns the full row
with the generated id and registration timestamp; and creating the same
user twice yields success then Conflict. -/
theorem c7_crear_usuario_contract (db : DB) (now now2 : Nat) (u : UsuarioCreate) :
    ((∃ w ∈ db.usuarios, w.correo = u.correo) →
      crear_usuario db now u = (.error .conflict, db)) ∧
    ((∀ w ∈ db.usuarios, w.correo ≠ u.correo) →
      crear_usuario db now u
          = (.ok { id := db.nextUsuarioId, nombre := u.nombre, correo := u.correo,
                   fecha_registro := now },
             { db with
                 usuarios := db.usuarios ++
                   [{ id := db.nextUsuarioId, nombre := u.nombre, correo := u.correo,
                      fecha_registro := now }],
                 nextUsuarioId := db.nextUsuarioId + 1 }) ∧
        crear_usuario
            ({ db with
                 usuarios := db.usuarios ++
                   [{ id := db.nextUsuarioId, nombre := u.nombre, correo := u.correo,
                      fecha_registro := now }],
                 nextUsuarioId := db.nextUsuarioId + 1 }) now2 u
          = (.error .conflict,
             { db with
                 usuarios := db.usuarios ++
                   [{ id := db.nextUsuarioId, nombre := u.nombre, correo := u.correo,
                      fecha_registro := now }],
                 nextUsuarioId := db.nextUsuarioId + 1 })) := by
  constructor
  · rintro ⟨w, hw, hcorreo⟩
    have hany : (db.usuarios.any (fun w => w.correo == u.correo)) = true :=
      List.any_eq_true.2 ⟨w, hw, beq_iff_eq.2 hcorreo⟩
    rw [crear_usuario, if_pos hany]
  · intro hfresh
    have hany : ¬((db.usuarios.any (fun w => w.correo == u.correo)) = true) := by
      intro hx
      obtain ⟨w, hw, hwp⟩ := List.any_eq_true.1 hx
      exact hfresh w hw (beq_iff_eq.1 hwp)
    constructor
    · rw [crear_usuario, if_neg hany]
    · have hany2 : ((db.usuarios ++
          [{ id := db.nextUsuarioId, nombre := u.nombre, correo := u.correo,
             fecha_registro := now : Usuario }]).any
            (fun w => w.correo == u.correo)) = true := by
        refine List.any_eq_true.2 ⟨_, List.mem_append_right _ (List.mem_singleton.2 rfl), ?_⟩
        exact beq_iff_eq.2 rfl
      rw [crear_usuario, if_pos hany2]

/-- Concrete run of C7: creating Ana on the empty store succeeds with id 1,
creating her again with the same email yields Conflict. -/
theorem c7_crear_usuario_contract_witness :
    crear_usuario emptyDB 3 { nombre := "Ana", correo := "ana@x.com" }
        = (.ok { id := 1, nombre := "Ana", correo := "ana@x.com", fecha_registro := 3 },
           { emptyDB with
               usuarios := [{ id := 1, nombre := "Ana", correo := "ana@x.com",
                              fecha_registro := 3 }],
               nextUsuarioId := 2 }) ∧
      crear_usuario
          ({ emptyDB with
               usuarios := [{ id := 1, nombre := "Ana", correo := "ana@x.com",
                              fecha_registro := 3 }],
               nextUsuarioId := 2 }) 4 { nombre := "Ana", correo := "ana@x.com" }
        = (.error .conflict,
           { emptyDB with
               usuarios := [{ id := 1, nombre := "Ana", correo := "ana@x.com",
                              fecha_registro := 3 }],
               nextUsuarioId := 2 }) :=
  (c7_crear_usuario_contract emptyDB 3 4 { nombre := "Ana", correo := "ana@x.com" }).2
    (by decide)

/-- Claim C8: a year greater than the current calendar year is rejected by
the `año` validation both at creation (`CancionBase`) and at update
(`CancionUpdate`); a year within [1900, 2100] that does not exceed the
current year is accepted by both. -/
theorem c8_anio_validacion (anio_actual v : Int) :
    (v > anio_actual →
      cancionCreateAnioAceptado anio_actual v = false ∧
        cancionUpdateAnioAceptado anio_actual (some v) = false) ∧
    (1900 ≤ v → v ≤ 2100 → v ≤ anio_actual →
      cancionCreateAnioAceptado anio_actual v = true ∧
        cancionUpdateAnioAceptado anio_actual (some v) = true) := by
  constructor
  · intro h
    have hval : validar_anio_no_futuro anio_actual v = false := by
      rw [validar_anio_no_futuro, if_pos h]
    constructor
    · rw [cancionCreateAnioAceptado, hval, Bool.and_false]
    · rw [cancionUpdateAnioAceptado, hval, Bool.and_false]
  · intro h1 h2 h3
    have hval : validar_anio_no_futuro anio_actual v = true := by
      rw [validar_anio_no_futuro, if_neg (by omega)]
    have hbounds : anioFieldBounds v = true := by
      rw [anioFieldBounds, Bool.and_eq_true]
      exact ⟨decide_eq_true h1, decide_eq_true h2⟩
    constructor
    · rw [cancionCreateAnioAceptado, hval, hbounds, Bool.and_true]
    · rw [cancionUpdateAnioAceptado, hval, hbounds, Bool.and_true]

/-- Concrete run of C8 (taking 2026 as the current year): 2030 is rejected
at creation and update; 2020 is accepted at both. -/
theorem c8_anio_validacion_witness :
    cancionCreateAnioAceptado 2026 2030 = false ∧
      cancionUpdateAnioAceptado 2026 (some 2030) = false ∧
      cancionCreateAnioAceptado 2026 2020 = true ∧
      cancionUpdateAnioAceptado 2026 (some 2020) = true :=
  ⟨((c8_anio_validacion 2026 2030).1 (by decide)).1,
    ((c8_anio_validacion 2026 2030).1 (by decide)).2,
    ((c8_anio_validacion 2026 2020).2 (by decide) (by decide) (by decide)).1,
    ((c8_anio_validacion 2026 2020).2 (by decide) (by decide) (by decide)).2⟩

theorem sqlPaginate_length_le {α : Type} (skip limit : Int) (hl : 0 ≤ limit)
    (rows : List α) : (sqlPaginate skip limit rows).length ≤ limit.toNat := by
  have heq : sqlPaginate skip limit rows
      = if limit < 0 then rows.drop skip.toNat
        else (rows.drop skip.toNat).take limit.toNat := rfl
  rw [heq, if_neg (by omega)]
  exact List.length_take_le _ _

/-- Claim C9: on every list/search endpoint `skip` defaults to 0 and `limit`
defaults to 100, and a requested limit above 100 is silently clamped so at
most 100 rows come back — in particular `limit=1000` returns at most 100
entries. -/
theorem c9_paginacion_clamp (db : DB) (skip limit : Int)
    (t a g : Option String) (y : Option Int) (h : limit > 100) :
    skip_default = 0 ∧ limit_default = 100 ∧
    (listar_usuarios db skip limit).length ≤ 100 ∧
    (listar_canciones db skip limit).length ≤ 100 ∧
    (listar_favoritos db skip limit).length ≤ 100 ∧
    (buscar_canciones db t a g y skip limit).length ≤ 100 := by
  refine ⟨rfl, rfl, ?_, ?_, ?_, ?_⟩
  · rw [listar_usuarios]
    simp only [if_pos h]
    exact sqlPaginate_length_le skip 100 (by omega) _
  · rw [listar_canciones]
    simp only [if_pos h]
    exact sqlPaginate_length_le skip 100 (by omega) _
  · rw [listar_favoritos]
    simp only [if_pos h, List.length_map]
    exact sqlPaginate_length_le skip 100 (by omega) _
  · rw [buscar_canciones]
    simp only [if_pos h]
    exact sqlPaginate_length_le skip 100 (by omega) _

/-- Concrete run of C9 at `limit=1000`. -/
theorem c9_paginacion_clamp_witness :
    skip_default = 0 ∧ limit_default = 100 ∧
    (listar_usuarios dbBase 0 1000).length ≤ 100 ∧
    (listar_canciones dbBase 0 1000).length ≤ 100 ∧
    (listar_favoritos dbBase 0 1000).length ≤ 100 ∧
    (buscar_canciones dbBase none none none none 0 1000).length ≤ 100 :=
  c9_paginacion_clamp dbBase 0 1000 none none none none (by decide)

/-- Claim C10: the clamp touches `limit` only when it exceeds 100.  Any
`limit ≤ 100` — zero and negative values included — and any `skip` —
negative values included — are handed to the underlying query unchanged, and
no such request is rejected: each endpoint still answers with the
(`sqlPaginate`-interpreted) row list. -/
theorem c10_paginacion_sin_normalizar (db : DB) (skip limit : Int)
    (t a g : Option String) (y : Option Int) (h : limit ≤ 100) :
    listar_usuarios db skip limit = sqlPaginate skip limit db.usuarios ∧
    listar_canciones db skip limit = sqlPaginate skip limit db.canciones ∧
    listar_favoritos db skip limit
      = (sqlPaginate skip limit db.favoritos).map (favoritoConNested db) ∧
    buscar_canciones db t a g y skip limit
      = sqlPaginate skip limit (buscarRows db t a g y) := by
  refine ⟨?_, ?_, ?_, ?_⟩
  · rw [listar_usuarios]
    simp only [if_neg (by omega : ¬(limit > 100))]
  · rw [listar_canciones]
    simp only [if_neg (by omega : ¬(limit > 100))]
  · rw [listar_favoritos]
    simp only [if_neg (by omega : ¬(limit > 100))]
  · rw [buscar_canciones]
    simp only [if_neg (by omega : ¬(limit > 100))]

/-- Concrete run of C10 with negative `skip` and `limit`: the values reach
the query untouched (`LIMIT -1` means no limit in SQLite, a negative offset
acts as zero), so the full table still comes back. -/
theorem c10_paginacion_sin_normalizar_witness :
    (listar_usuarios dbDosUsuarios (-2) (-1) = sqlPaginate (-2) (-1) dbDosUsuarios.usuarios ∧
      listar_canciones dbDosUsuarios (-2) (-1) = sqlPaginate (-2) (-1) dbDosUsuarios.canciones ∧
      listar_favoritos dbDosUsuarios (-2) (-1)
        = (sqlPaginate (-2) (-1) dbDosUsuarios.favoritos).map (favoritoConNested dbDosUsuarios) ∧
      buscar_canciones dbDosUsuarios none none none none (-2) (-1)
        = sqlPaginate (-2) (-1) (buscarRows dbDosUsuarios none none none none)) ∧
      listar_usuarios dbDosUsuarios (-2) (-1) = [anaUsuario, bobUsuario] ∧
      listar_usuarios dbDosUsuarios 0 0 = [] :=
  ⟨c10_paginacion_sin_normalizar dbDosUsuarios (-2) (-1) none none none none (by decide),
    by decide, by decide⟩
